import Mathlib

namespace GammaMcp

/-- JSON-like values as manipulated by the server. `undef` models JavaScript
`undefined`, which is distinct from JSON `null`. -/
inductive JValue where
  | undef
  | null
  | bool (b : Bool)
  | num (n : Int)
  | str (s : String)
  | arr (xs : List JValue)
  | obj (fields : List (String × JValue))

/-- Whether a value is JavaScript `undefined`. -/
def JValue.isUndef : JValue → Bool
  | .undef => true
  | _ => false

/-- Mirrors the source's emptiness test
`typeof cleaned === "object" && cleaned !== null && Object.keys(cleaned).length === 0`:
in JavaScript both plain objects and arrays have `typeof === "object"`, and
`Object.keys` of an empty array is empty. -/
def isEmptyObject : JValue → Bool
  | .arr xs => xs.isEmpty
  | .obj fs => fs.isEmpty
  | _ => false

mutual

/-- Embedding of `removeUndefinedDeep` (src/unnamed/part_000 lines 81-99, identical in
part_001 and build/index.js): arrays are mapped recursively then filtered of
`undefined`; objects keep an entry only when the cleaned value is neither
`undefined` nor an empty object/array; primitives pass through. -/
def removeUndefinedDeep : JValue → JValue
  | .arr xs => .arr (rudList xs)
  | .obj fs => .obj (rudFields fs)
  | v => v

/-- The array branch of `removeUndefinedDeep`: `value.map(removeUndefinedDeep).filter(v => v !== undefined)`. -/
def rudList : List JValue → List JValue
  | [] => []
  | v :: rest =>
    if (removeUndefinedDeep v).isUndef then rudList rest
    else removeUndefinedDeep v :: rudList rest

/-- The object branch of `removeUndefinedDeep`: keep `(k, cleaned)` only when
`cleaned !== undefined && !isEmptyObject`. -/
def rudFields : List (String × JValue) → List (String × JValue)
  | [] => []
  | (k, v) :: rest =>
    if (removeUndefinedDeep v).isUndef || isEmptyObject (removeUndefinedDeep v) then
      rudFields rest
    else (k, removeUndefinedDeep v) :: rudFields rest

end

mutual

/-- No key of any object node (recursively) holds `undefined` or an empty
object/array: the shape `removeUndefinedDeep` is meant to guarantee. -/
def wellPruned : JValue → Bool
  | .arr xs => wpList xs
  | .obj fs => wpFields fs
  | _ => true

/-- `wellPruned` for array elements. -/
def wpList : List JValue → Bool
  | [] => true
  | v :: rest => wellPruned v && wpList rest

/-- `wellPruned` for object fields. -/
def wpFields : List (String × JValue) → Bool
  | [] => true
  | (_, v) :: rest => !v.isUndef && !isEmptyObject v && wellPruned v && wpFields rest

end

/-- Lowercase an ASCII character, as `String.prototype.toLowerCase` does on
ASCII input (the only inputs the server compares: status words, header names,
amount keywords). -/
def lowerChar (c : Char) : Char :=
  if c.toNat ≥ 65 ∧ c.toNat ≤ 90 then Char.ofNat (c.toNat + 32) else c

/-- Model of JavaScript `s.toLowerCase()` (ASCII range). -/
def lowerStr (s : String) : String := String.mk (s.toList.map lowerChar)

/-- Whitespace for the purposes of `String.prototype.trim`. -/
def isWhite (c : Char) : Bool := c = ' ' || c = '\t' || c = '\n' || c = '\r'

/-- Model of JavaScript `s.trim()`. -/
def trimStr (s : String) : String :=
  String.mk (((s.toList.dropWhile isWhite).reverse.dropWhile isWhite).reverse)

/-- Model of JavaScript `s.startsWith(p)`. -/
def strStartsWith (s p : String) : Bool := p.toList.isPrefixOf s.toList

/-- Model of JavaScript `s.slice(0, n)` (character counted; all strings the
CLI handles are ASCII, where code units and characters coincide). -/
def takeStr (s : String) (n : Nat) : String := String.mk (s.toList.take n)

/-- Model of JavaScript `s.slice(n)`. -/
def dropStr (s : String) (n : Nat) : String := String.mk (s.toList.drop n)

/-- Model of JavaScript `s.length` for ASCII strings. -/
def strLen (s : String) : Nat := s.toList.length

/-- Model of JavaScript `s.indexOf(c)` for a single character: index of the
first occurrence, or `-1`. -/
def indexOfChar (s : String) (c : Char) : Int :=
  match s.toList.findIdx? (fun a => a = c) with
  | some i => (i : Int)
  | none => -1

/-- Truthiness of a JavaScript string-or-undefined value: `undefined` and the
empty string are falsy, every other string is truthy. -/
def truthy : Option String → Bool
  | none => false
  | some s => !(s == "")

/-- Embedding of the `mapAmount` helper (src/unnamed/part_000 lines 191-198,
identical in build/index.js): maps the legacy length vocabulary onto the
v0.2 one and unrecognized values to `undefined`. -/
def mapAmount (val : Option String) : Option String :=
  match val with
  | none => none
  | some s =>
    if s = "" then none
    else
      let v := lowerStr s
      if v = "brief" || v = "medium" || v = "detailed" || v = "extensive" then some v
      else if v = "short" then some "brief"
      else if v = "long" then some "detailed"
      else none

/-- A JavaScript string-valued record, as used for HTTP headers: insertion
order preserved, values possibly `undefined` (a key can be present while its
value is `undefined`, exactly as after `obj[k] = undefined` in JavaScript). -/
abbrev HMap := List (String × Option String)

/-- JavaScript property assignment `m[k] = v`: update in place when the key
exists, append otherwise. -/
def jsSet (m : HMap) (k : String) (v : Option String) : HMap :=
  if m.any (fun kv => kv.1 = k) then
    m.map (fun kv => if kv.1 = k then (k, v) else kv)
  else m ++ [(k, v)]

/-- JavaScript property read `m[k]`: `undefined` both for a missing key and
for a key stored with an `undefined` value. -/
def jsGet (m : HMap) (k : String) : Option String :=
  match m.find? (fun kv => kv.1 = k) with
  | some kv => kv.2
  | none => none

/-- Model of `Object.fromEntries`: later entries overwrite earlier ones. -/
def fromEntries (l : HMap) : HMap := l.foldl (fun m kv => jsSet m kv.1 kv.2) []

/-- Embedding of the `addHeader` closure inside `parseCliArgs`
(src/unnamed/part_000 lines 25-32): split `name:value` (or `name=value`) at the
first separator, trim both parts, and store when the name is non-empty. -/
def addHeader (headers : HMap) (raw : String) : HMap :=
  let idx := if indexOfChar raw ':' ≥ 0 then indexOfChar raw ':' else indexOfChar raw '='
  if idx > -1 then
    let nm := trimStr (takeStr raw idx.toNat)
    let value := trimStr (dropStr raw (idx.toNat + 1))
    if nm ≠ "" then jsSet headers nm (some value) else headers
  else headers

/-- Argument scan of `parseCliArgs` (src/unnamed/part_000 lines 33-51):
`--api-key`/`--api-key=` set the key, `--header`/`--header=` accumulate
headers; a flag without its value argument is ignored. -/
def parseLoop : List String → Option String → HMap → Option String × HMap
  | [], apiKey, headers => (apiKey, headers)
  | arg :: rest, apiKey, headers =>
    if arg = "--api-key" then
      match rest with
      | v :: rest2 => parseLoop rest2 (some v) headers
      | [] => (apiKey, headers)
    else if strStartsWith arg "--api-key=" then
      parseLoop rest (some (dropStr arg (strLen "--api-key="))) headers
    else if arg = "--header" then
      match rest with
      | v :: rest2 => parseLoop rest2 apiKey (addHeader headers v)
      | [] => (apiKey, headers)
    else if strStartsWith arg "--header=" then
      parseLoop rest apiKey (addHeader headers (dropStr arg (strLen "--header=")))
    else parseLoop rest apiKey headers

/-- CLI options collected at startup. -/
structure CliOptions where
  apiKey : Option String
  headers : HMap
deriving DecidableEq

/-- Embedding of `parseCliArgs` (src/unnamed/part_000 lines 22-60): scan the
arguments, then mirror `Authorization` into `X-API-KEY` when no key header was
supplied. The presence test is case-insensitive (via the lowered copy), while
the mirrored value is read back from the original map at the exact spelling
`"Authorization"`, as in the source. -/
def parseCliArgs (argv : List String) : CliOptions :=
  let p := parseLoop argv none []
  let headers := p.2
  let lower := fromEntries (headers.map (fun kv => (lowerStr kv.1, kv.2)))
  let headers2 :=
    if !truthy (jsGet lower "x-api-key") && truthy (jsGet lower "authorization") then
      jsSet headers "X-API-KEY" (jsGet headers "Authorization")
    else headers
  { apiKey := p.1, headers := headers2 }

/-- Embedding of `buildHeaders` (src/unnamed/part_000 lines 64-79): defaults,
then `extra`, then CLI header overrides; finally `X-API-KEY` is added when no
header with that (case-insensitive) name exists and a key is available from
the CLI flag or the environment. -/
def buildHeaders (cli : CliOptions) (envApiKey : Option String) (extra : HMap) : HMap :=
  let base : HMap := [("Content-Type", some "application/json"), ("Accept", some "application/json")]
  let h1 := extra.foldl (fun m kv => jsSet m kv.1 kv.2) base
  let h2 := cli.headers.foldl (fun m kv => jsSet m kv.1 kv.2) h1
  let cliApiKey : String :=
    match cli.apiKey with
    | some s => if s = "" then envApiKey.getD "" else s
    | none => envApiKey.getD ""
  let hasApiKeyHeader := h2.any (fun kv => lowerStr kv.1 = "x-api-key")
  if !hasApiKeyHeader && !(cliApiKey == "") then jsSet h2 "X-API-KEY" (some cliApiKey) else h2

/-- An element of a `files` array in a status response: either a bare string
or an object with an optional `url` member. -/
inductive FileEntry where
  | str (s : String)
  | obj (url : Option String)
deriving DecidableEq

/-- Fields of a status response that any of the variants reads
(`GenerationStatusResponse` in the source). `resultFiles` stands for
`result?.files`; `none` on a list field covers both `undefined` and `null`. -/
structure GenerationStatusResponse where
  status : Option String := none
  gammaUrl : Option String := none
  url : Option String := none
  shareUrl : Option String := none
  exportUrl : Option String := none
  pdfUrl : Option String := none
  pptxUrl : Option String := none
  files : Option (List FileEntry) := none
  resultFiles : Option (List FileEntry) := none
deriving DecidableEq

/-- Status string: `(data.status || "").toLowerCase()`. -/
def statusOf (d : GenerationStatusResponse) : String := lowerStr (d.status.getD "")

/-- Terminal success synonyms, shared by every variant. -/
def isSuccessStatus (d : GenerationStatusResponse) : Bool :=
  statusOf d = "completed" || statusOf d = "succeeded" || statusOf d = "success"

/-- Terminal failure synonyms, shared by every variant. -/
def isFailureStatus (d : GenerationStatusResponse) : Bool :=
  statusOf d = "failed" || statusOf d = "error"

/-- JavaScript `a || b` on string-or-undefined values. -/
def jsOr (a b : Option String) : Option String := if truthy a then a else b

/-- View link: `data.gammaUrl || data.url || data.shareUrl` (part_000/part_001). -/
def gammaUrlOf (d : GenerationStatusResponse) : Option String :=
  jsOr d.gammaUrl (jsOr d.url d.shareUrl)

/-- The candidate URL of a files-array element:
`typeof first === "string" ? first : first?.url`. -/
def entryUrl : FileEntry → Option String
  | .str s => some s
  | .obj u => u

/-- One iteration of the files-arrays fallback: look only at the FIRST element
of a non-empty array and accept its URL only when truthy. -/
def filesCandidate (files : Option (List FileEntry)) : Option String :=
  match files with
  | some (first :: _) =>
    let u := entryUrl first
    if truthy u then u else none
  | _ => none

/-- File-URL extraction of src/unnamed/part_000 lines 158-174 (identical in
build/index.js): `pdfUrl` is taken first but then unconditionally OVERWRITTEN
by `pptxUrl` when the latter is truthy; no `exportUrl` field is consulted;
then the `files` and `result.files` arrays. -/
def extractFileUrlP0 (d : GenerationStatusResponse) : Option String :=
  let f1 : Option String := if truthy d.pdfUrl then d.pdfUrl else none
  let f2 : Option String := if truthy d.pptxUrl then d.pptxUrl else f1
  let f3 : Option String := if f2.isNone then filesCandidate d.files else f2
  if f3.isNone then filesCandidate d.resultFiles else f3

/-- File-URL extraction of src/unnamed/part_001 lines 318-335: explicit
`exportUrl` first, then `pptxUrl`, then `pdfUrl` (each guarded by
`!fileUrl`), then the `files` and `result.files` arrays. -/
def extractFileUrlV2 (d : GenerationStatusResponse) : Option String :=
  let f1 : Option String := if truthy d.exportUrl then d.exportUrl else none
  let f2 : Option String := if f1.isNone && truthy d.pptxUrl then d.pptxUrl else f1
  let f3 : Option String := if f2.isNone && truthy d.pdfUrl then d.pdfUrl else f2
  let f4 : Option String := if f3.isNone then filesCandidate d.files else f3
  if f4.isNone then filesCandidate d.resultFiles else f4

/-- URL extraction of src/src/index.ts lines 84-98: `url`, `shareUrl`, then the
files arrays; each `return` in the source becomes taking the first truthy
candidate here. -/
def extractFileUrlSrc (d : GenerationStatusResponse) : Option String :=
  let f1 : Option String := if truthy d.url then d.url else none
  let f2 : Option String := if f1.isNone && truthy d.shareUrl then d.shareUrl else f1
  let f3 : Option String := if f2.isNone then filesCandidate d.files else f2
  if f3.isNone then filesCandidate d.resultFiles else f3

/-- First truthy candidate of an ordered list, or absent. -/
def firstTruthy : List (Option String) → Option String
  | [] => none
  | o :: rest => if truthy o then o else firstTruthy rest

/-- Priority order exactly as the specification states it: explicit export-URL
field first, then the format-specific URL fields, then the first element of
one of the files-list fields. Written from the claim's words, to be compared
with the extraction functions embedded from the source. -/
def claimedFileUrlPriority (d : GenerationStatusResponse) : Option String :=
  firstTruthy [d.exportUrl, d.pptxUrl, d.pdfUrl, filesCandidate d.files, filesCandidate d.resultFiles]

/-- Result of the poll loop in the part_000/part_001 variants. -/
structure PollResult where
  gammaUrl : Option String
  fileUrl : Option String
deriving DecidableEq

/-- Outcome of one status fetch: HTTP failure (non-2xx) or a parsed body. -/
inductive PollResponse where
  | httpErr (status : Nat) (body : String)
  | ok (data : GenerationStatusResponse)
deriving DecidableEq

/-- Outcome of the whole poll loop. `done` carries the variant-specific
success value; `raised` models an exception thrown inside the success branch;
the remaining constructors model the loop's own `throw` sites. -/
inductive PollOutcome (α : Type) where
  | done (a : α)
  | raised (msg : String)
  | genFailed
  | httpError (status : Nat) (body : String)
  | timeout
deriving DecidableEq

/-- Success branch of part_000's `pollGeneration`. -/
def onSuccessP0 (d : GenerationStatusResponse) : PollOutcome PollResult :=
  .done { gammaUrl := gammaUrlOf d, fileUrl := extractFileUrlP0 d }

/-- Success branch of part_001's `pollGeneration`. -/
def onSuccessV2 (d : GenerationStatusResponse) : PollOutcome PollResult :=
  .done { gammaUrl := gammaUrlOf d, fileUrl := extractFileUrlV2 d }

/-- Success branch of src/src/index.ts's `pollGeneration`: return the first
URL found, or throw when none is. -/
def onSuccessSrc (d : GenerationStatusResponse) : PollOutcome String :=
  match extractFileUrlSrc d with
  | some u => .done u
  | none => .raised "Gamma v0.2 completed but no file URL present in response"

/-- Embedding of the polling loop shared by all variants
(src/unnamed/part_000 lines 137-183): while `Date.now() < deadline`, fetch the
status; non-2xx throws, a terminal success status runs the variant's success
branch, a terminal failure status throws, and otherwise the loop sleeps
`intervalMs` and retries. Time is explicit: `elapsed` advances by the fetch
duration `dur k` plus the sleep; `k` counts status fetches made so far. -/
def pollLoop {α : Type} (onPollSuccess : GenerationStatusResponse → PollOutcome α)
    (fetch : Nat → PollResponse) (dur : Nat → Nat)
    (intervalMs timeoutMs : Nat) (hi : 0 < intervalMs) (k elapsed : Nat) :
    PollOutcome α × Nat :=
  if elapsed < timeoutMs then
    match fetch k with
    | .httpErr s b => (.httpError s b, k + 1)
    | .ok d =>
      if isSuccessStatus d then (onPollSuccess d, k + 1)
      else if isFailureStatus d then (.genFailed, k + 1)
      else pollLoop onPollSuccess fetch dur intervalMs timeoutMs hi (k + 1)
        (elapsed + dur k + intervalMs)
  else (.timeout, k)
termination_by timeoutMs - elapsed
decreasing_by omega

/-- Default poll interval: `options.intervalMs ?? 3000`. -/
def defaultIntervalMs : Nat := 3000

/-- Default poll deadline: `options.timeoutMs ?? 5 * 60 * 1000`. -/
def defaultTimeoutMs : Nat := 5 * 60 * 1000

/-- Whether a fetched response is HTTP-ok with a non-terminal status. -/
def isNonTerminal (r : PollResponse) : Bool :=
  match r with
  | .httpErr _ _ => false
  | .ok d => !isSuccessStatus d && !isFailureStatus d

/-- Part_000's `pollGeneration(generationId)` as called by
`generatePresentation`: no options, hence the default interval and timeout. -/
def pollGenerationDefault (fetch : Nat → PollResponse) (dur : Nat → Nat) :
    PollOutcome PollResult × Nat :=
  pollLoop onSuccessP0 fetch dur defaultIntervalMs defaultTimeoutMs (by decide) 0 0

/-- The fixed v0.2 endpoint. -/
def GAMMA_API_V02_BASE : String := "https://public-api.gamma.app/v0.2/generations"

/-- Unreserved characters of `encodeURIComponent`. -/
def isUnreservedURIChar (c : Char) : Bool :=
  c.isAlphanum || c = '-' || c = '_' || c = '.' || c = '!' || c = '~' ||
  c = '*' || c = '\'' || c = '(' || c = ')'

/-- Uppercase hexadecimal digit. -/
def hexDigit (n : Nat) : Char := if n < 10 then Char.ofNat (48 + n) else Char.ofNat (55 + n)

/-- Model of `encodeURIComponent` on single-byte characters (generation ids
are ASCII tokens; multi-byte UTF-8 is not modeled). -/
def encodeURIComponentStr (s : String) : String :=
  String.mk ((s.toList.map (fun c =>
    if isUnreservedURIChar c then [c]
    else ['%', hexDigit (c.toNat / 16 % 16), hexDigit (c.toNat % 16)])).flatten)

/-- An HTTP request as issued by the orchestration; `headers = none` means the
`fetch` options carried no `headers` property at all. -/
structure HttpRequest where
  method : String
  url : String
  headers : Option HMap
deriving DecidableEq

/-- The submission request: `fetch(GAMMA_API_V02_BASE, { method: "POST", headers: buildHeaders(), ... })`. -/
def initRequest (cli : CliOptions) (envApiKey : Option String) : HttpRequest :=
  { method := "POST", url := GAMMA_API_V02_BASE, headers := some (buildHeaders cli envApiKey []) }

/-- A status-fetch request: GET on `{base}/{encodeURIComponent(id)}` with `buildHeaders()`. -/
def pollRequest (cli : CliOptions) (envApiKey : Option String) (generationId : String) : HttpRequest :=
  { method := "GET", url := GAMMA_API_V02_BASE ++ "/" ++ encodeURIComponentStr generationId,
    headers := some (buildHeaders cli envApiKey []) }

/-- The artifact download request: `fetch(fileUrl, { method: "GET" })` — the
options object has no `headers` property. -/
def downloadRequest (fileUrl : String) : HttpRequest :=
  { method := "GET", url := fileUrl, headers := none }

/-- Outcome of the submission HTTP call, as supplied by the environment:
non-2xx with status and body text, or 2xx with the parsed optional
`generationId` field. -/
inductive InitResponse where
  | httpErr (status : Nat) (body : String)
  | ok (generationId : Option String)
deriving DecidableEq

/-- Errors thrown by `startGeneration`, with the exact messages of the source. -/
inductive GammaError where
  | initFailed (status : Nat) (body : String)
  | initMissingId
deriving DecidableEq

/-- Message carried by the thrown `Error` object. -/
def GammaError.message : GammaError → String
  | .initFailed s b => "Gamma v0.2 init failed: " ++ toString s ++ " " ++ b
  | .initMissingId => "Gamma v0.2 init response missing generation id"

/-- Embedding of `startGeneration` (src/unnamed/part_000 lines 114-130): non-2xx
throws; a 2xx body whose `generationId` is missing or falsy throws; otherwise
the id is returned. The serialized payload does not influence the outcome,
which the environment's response models. -/
def startGeneration (payload : JValue) (r : InitResponse) : Except GammaError String :=
  match payload, r with
  | _, .httpErr s b => .error (.initFailed s b)
  | _, .ok (some id) => if id = "" then .error .initMissingId else .ok id
  | _, .ok none => .error .initMissingId

/-- Caller parameters of the tool (already schema-validated upstream).
`numCards` is modeled as already numeric: the source only converts a string
form with `Number(...)`. -/
structure GenParams where
  inputText : Option String := none
  textMode : Option String := none
  format : Option String := none
  themeName : Option String := none
  numCards : Option Int := none
  cardSplit : Option String := none
  additionalInstructions : Option String := none
  exportAs : Option String := none
  textAmount : Option String := none
  tone : Option String := none
  audience : Option String := none
  language : Option String := none
  imageSource : Option String := none
  imageModel : Option String := none
  imageStyle : Option String := none
  cardDimensions : Option String := none
  workspaceAccess : Option String := none
  externalAccess : Option String := none

/-- Lift an optional string parameter to a JSON value (`undefined` when absent). -/
def jopt : Option String → JValue
  | none => .undef
  | some s => .str s

/-- Lift an optional number parameter to a JSON value. -/
def joptNum : Option Int → JValue
  | none => .undef
  | some n => .num n

/-- The request body built by part_000's `generatePresentation` (lines
200-227): the field layout of the source, each nested options object pruned,
then the whole object pruned again. -/
def buildPayload (params : GenParams) : JValue :=
  removeUndefinedDeep (.obj [
    ("inputText", jopt params.inputText),
    ("textMode", jopt params.textMode),
    ("format", jopt params.format),
    ("themeName", jopt params.themeName),
    ("numCards", joptNum params.numCards),
    ("cardSplit", jopt params.cardSplit),
    ("additionalInstructions", jopt params.additionalInstructions),
    ("exportAs", jopt params.exportAs),
    ("textOptions", removeUndefinedDeep (.obj [
      ("amount", jopt (mapAmount params.textAmount)),
      ("tone", jopt params.tone),
      ("audience", jopt params.audience),
      ("language", jopt params.language)])),
    ("imageOptions", removeUndefinedDeep (.obj [
      ("source", jopt params.imageSource),
      ("model", jopt params.imageModel),
      ("style", jopt params.imageStyle)])),
    ("cardOptions", removeUndefinedDeep (.obj [
      ("dimensions", jopt params.cardDimensions)])),
    ("sharingOptions", removeUndefinedDeep (.obj [
      ("workspaceAccess", jopt params.workspaceAccess),
      ("externalAccess", jopt params.externalAccess)]))])

/-- Model of Node's `path.extname`: ignore trailing slashes, take the last
path segment, and return from its last dot on — empty when there is no dot,
the dot is the segment's first character, or the segment is `".."`. -/
def extname (p : String) : String :=
  let noSlash := ((p.toList.reverse.dropWhile (fun c => c = '/')).reverse)
  let base := (noSlash.reverse.takeWhile (fun c => c ≠ '/')).reverse
  if base = ['.', '.'] then ""
  else
    match base.reverse.findIdx? (fun c => c = '.') with
    | some j =>
      let i := base.length - 1 - j
      if i = 0 then "" else String.mk (base.drop i)
    | none => ""

/-- Model of `new URL(u).pathname` for http(s) URLs: `none` models the
constructor throwing. Query and fragment are cut off; an absent path is `/`. -/
def urlPathname (u : String) : Option String :=
  let cs := u.toList
  if strStartsWith u "https://" || strStartsWith u "http://" then
    let rest := if strStartsWith u "https://" then cs.drop 8 else cs.drop 7
    let host := rest.takeWhile (fun c => c ≠ '/' && c ≠ '?' && c ≠ '#')
    if host.isEmpty then none
    else
      let tl := rest.drop host.length
      let path := tl.takeWhile (fun c => c ≠ '?' && c ≠ '#')
      some (if path.isEmpty then "/" else String.mk path)
  else none

/-- The output directory, standing for `path.resolve(__dirname, "../output")`. -/
def outputDir : String := "output"

/-- Structured result of `generatePresentation`: each field is `null`able. -/
structure GPResult where
  url : Option String
  filePath : Option String
  error : Option String
deriving DecidableEq

/-- JavaScript `v || null` on a string-or-undefined value. -/
def jsOrNull (v : Option String) : Option String := if truthy v then v else none

/-- Environment of one end-to-end run: the remote responses and whether the
artifact download returns 2xx. -/
structure Env where
  initResponse : InitResponse
  pollFetch : Nat → PollResponse
  pollDur : Nat → Nat
  downloadOk : Bool

/-- Embedding of part_000's `generatePresentation` (lines 186-255): build the
payload, submit, poll with default options, then conditionally download; every
thrown error is caught at this boundary and becomes the error-only result.
The second component records the HTTP requests issued, in order. `mkdir` and
`writeFile` are assumed to succeed; a download non-2xx is only logged. -/
def generatePresentation (cli : CliOptions) (envApiKey : Option String)
    (env : Env) (params : GenParams) : GPResult × List HttpRequest :=
  let payload := buildPayload params
  match startGeneration payload env.initResponse with
  | .error e =>
    ({ url := none, filePath := none, error := some e.message }, [initRequest cli envApiKey])
  | .ok generationId =>
    let pollRes := pollGenerationDefault env.pollFetch env.pollDur
    let reqs := initRequest cli envApiKey ::
      List.replicate pollRes.2 (pollRequest cli envApiKey generationId)
    match pollRes.1 with
    | .done pr =>
      if truthy pr.fileUrl && truthy params.exportAs then
        match pr.fileUrl with
        | some fileUrl =>
          match urlPathname fileUrl with
          | none => ({ url := none, filePath := none, error := some "Invalid URL" }, reqs)
          | some pathname =>
            let extFromPath :=
              if extname pathname = "" then "." ++ (params.exportAs.getD "") else extname pathname
            let baseName := "gamma-generation-" ++ generationId ++ extFromPath
            let targetPath := outputDir ++ "/" ++ baseName
            let reqs2 := reqs ++ [downloadRequest fileUrl]
            if env.downloadOk then
              ({ url := jsOrNull pr.gammaUrl, filePath := some targetPath, error := none }, reqs2)
            else
              ({ url := jsOrNull pr.gammaUrl, filePath := none, error := none }, reqs2)
        | none => ({ url := jsOrNull pr.gammaUrl, filePath := none, error := none }, reqs)
      else ({ url := jsOrNull pr.gammaUrl, filePath := none, error := none }, reqs)
    | .raised msg => ({ url := none, filePath := none, error := some msg }, reqs)
    | .genFailed =>
      ({ url := none, filePath := none, error := some "Gamma v0.2 generation failed" }, reqs)
    | .httpError s b =>
      ({ url := none, filePath := none,
         error := some ("Gamma v0.2 poll failed: " ++ toString s ++ " " ++ b) }, reqs)
    | .timeout =>
      ({ url := none, filePath := none,
         error := some "Gamma v0.2 generation timed out while waiting for result" }, reqs)

/-- Whether the modeled exception sources fire during a run: submission throw,
any poll-loop throw, or a `new URL` throw in the download phase. -/
def raisesDuringRun (env : Env) (params : GenParams) : Bool :=
  match startGeneration (buildPayload params) env.initResponse with
  | .error _ => true
  | .ok _ =>
    match (pollGenerationDefault env.pollFetch env.pollDur).1 with
    | .done pr =>
      if truthy pr.fileUrl && truthy params.exportAs then
        match pr.fileUrl with
        | some u => (urlPathname u).isNone
        | none => false
      else false
    | _ => true

mutual

theorem rud_idem : ∀ v, removeUndefinedDeep (removeUndefinedDeep v) = removeUndefinedDeep v
  | .undef => rfl
  | .null => rfl
  | .bool _ => rfl
  | .num _ => rfl
  | .str _ => rfl
  | .arr xs => by simp [removeUndefinedDeep, rudList_idem xs]
  | .obj fs => by simp [removeUndefinedDeep, rudFields_idem fs]

theorem rudList_idem : ∀ xs, rudList (rudList xs) = rudList xs
  | [] => rfl
  | v :: rest => by
    by_cases h : (removeUndefinedDeep v).isUndef
    · simp [rudList, h, rudList_idem rest]
    · simp [rudList, h, rud_idem v, rudList_idem rest]

theorem rudFields_idem : ∀ fs, rudFields (rudFields fs) = rudFields fs
  | [] => rfl
  | (k, v) :: rest => by
    by_cases h : (removeUndefinedDeep v).isUndef || isEmptyObject (removeUndefinedDeep v)
    · simp only [rudFields]
      rw [if_pos h]
      exact rudFields_idem rest
    · simp only [rudFields]
      rw [if_neg h]
      simp only [rudFields, rud_idem v]
      rw [if_neg h]
      rw [rudFields_idem rest]

end

mutual

theorem rud_wellPruned : ∀ v, wellPruned (removeUndefinedDeep v) = true
  | .undef => rfl
  | .null => rfl
  | .bool _ => rfl
  | .num _ => rfl
  | .str _ => rfl
  | .arr xs => by simp [removeUndefinedDeep, wellPruned, rudList_wellPruned xs]
  | .obj fs => by simp [removeUndefinedDeep, wellPruned, rudFields_wellPruned fs]

theorem rudList_wellPruned : ∀ xs, wpList (rudList xs) = true
  | [] => rfl
  | v :: rest => by
    by_cases h : (removeUndefinedDeep v).isUndef
    · simp [rudList, h, rudList_wellPruned rest]
    · simp [rudList, h, wpList, rud_wellPruned v, rudList_wellPruned rest]

theorem rudFields_wellPruned : ∀ fs, wpFields (rudFields fs) = true
  | [] => rfl
  | (k, v) :: rest => by
    by_cases h : (removeUndefinedDeep v).isUndef || isEmptyObject (removeUndefinedDeep v)
    · simp only [rudFields]
      rw [if_pos h]
      exact rudFields_wellPruned rest
    · simp only [rudFields]
      rw [if_neg h]
      simp only [wpFields]
      push_neg at h
      simp only [Bool.or_eq_true, not_or, Bool.not_eq_true, Bool.or_eq_false_iff] at h
      obtain ⟨h1, h2⟩ := h
      simp [h1, h2, rud_wellPruned v, rudFields_wellPruned rest]

end

theorem truthy_iff (v : Option String) : truthy v = true ↔ ∃ s, v = some s ∧ s ≠ "" := by
  cases v with
  | none => simp [truthy]
  | some s => simp [truthy]

theorem pollLoop_first_success {α : Type} (onPollSuccess : GenerationStatusResponse → PollOutcome α)
    (fetch : Nat → PollResponse) (dur : Nat → Nat) (i t : Nat) (hi : 0 < i)
    (d : GenerationStatusResponse) (hfetch : fetch 0 = .ok d)
    (hs : isSuccessStatus d = true) (ht : 0 < t) :
    pollLoop onPollSuccess fetch dur i t hi 0 0 = (onPollSuccess d, 1) := by
  rw [pollLoop, if_pos ht, hfetch]
  simp [hs]

/-- C2: removeUndefinedDeep removes every key whose value is undefined or an
empty object, recursively (including nested objects that only become empty
after their own children are pruned), and is idempotent. -/
theorem removeUndefinedDeep_prunes_and_idempotent (v : JValue) :
    wellPruned (removeUndefinedDeep v) = true ∧
    removeUndefinedDeep (removeUndefinedDeep v) = removeUndefinedDeep v :=
  ⟨rud_wellPruned v, rud_idem v⟩

/-- C8: mapAmount is total — "short" maps to "brief", "long" maps to
"detailed", values already in the target vocabulary pass through unchanged,
and any unrecognized value (including absent input) maps to absent rather
than raising an error. -/
theorem mapAmount_total_mapping :
    mapAmount (some "short") = some "brief" ∧
    mapAmount (some "long") = some "detailed" ∧
    mapAmount (some "brief") = some "brief" ∧
    mapAmount (some "medium") = some "medium" ∧
    mapAmount (some "detailed") = some "detailed" ∧
    mapAmount (some "extensive") = some "extensive" ∧
    mapAmount none = none ∧
    ∀ s : String,
      lowerStr s ∉ (["brief", "medium", "detailed", "extensive", "short", "long"] : List String) →
      mapAmount (some s) = none := by
  refine ⟨by decide, by decide, by decide, by decide, by decide, by decide, rfl, ?_⟩
  intro s hs
  simp only [List.mem_cons, List.not_mem_nil, or_false, not_or] at hs
  obtain ⟨h1, h2, h3, h4, h5, h6⟩ := hs
  unfold mapAmount
  by_cases he : s = ""
  · simp [he]
  · simp [he, h1, h2, h3, h4, h5, h6]

theorem mapAmount_total_mapping_witness :
    lowerStr "Gibberish" ∉ (["brief", "medium", "detailed", "extensive", "short", "long"] : List String) ∧
    mapAmount (some "Gibberish") = none :=
  ⟨by decide, mapAmount_total_mapping.2.2.2.2.2.2.2 "Gibberish" (by decide)⟩

/-- C5: the Authorization mirror is case-sensitive on the read side. With the
exact spelling `Authorization`, both the original header and an `X-API-KEY`
with the same value end up in the effective set, and an explicit `x-api-key`
wins over the mirror; but with the spelling `authorization` the
(case-insensitive) presence check fires while `headers["Authorization"]` reads
back `undefined`, so the added `X-API-KEY` carries no value — contradicting
the claim and the source's own comment that `Authorization` is mirrored. -/
theorem authorization_mirror_case_sensitivity :
    jsGet (parseCliArgs ["--header", "Authorization: secret"]).headers "Authorization" = some "secret" ∧
    jsGet (parseCliArgs ["--header", "Authorization: secret"]).headers "X-API-KEY" = some "secret" ∧
    jsGet (buildHeaders (parseCliArgs ["--header", "Authorization: secret"]) none []) "X-API-KEY" = some "secret" ∧
    jsGet (buildHeaders (parseCliArgs ["--header", "x-api-key: explicit", "--header", "Authorization: secret"]) none []) "x-api-key" = some "explicit" ∧
    jsGet (parseCliArgs ["--header", "x-api-key: explicit", "--header", "Authorization: secret"]).headers "X-API-KEY" = none ∧
    jsGet (parseCliArgs ["--header", "authorization: secret"]).headers "authorization" = some "secret" ∧
    jsGet (parseCliArgs ["--header", "authorization: secret"]).headers "X-API-KEY" = none ∧
    (parseCliArgs ["--header", "authorization: secret"]).headers.any (fun kv => kv.1 = "X-API-KEY") = true ∧
    jsGet (buildHeaders (parseCliArgs ["--header", "authorization: secret"]) none []) "X-API-KEY" = none := by
  decide

theorem pollLoop_nonterminal_aux {α : Type} (onPollSuccess : GenerationStatusResponse → PollOutcome α)
    (fetch : Nat → PollResponse) (dur : Nat → Nat) (i t : Nat) (hi : 0 < i)
    (hnt : ∀ j, j * i < t → isNonTerminal (fetch j) = true) :
    ∀ n k e, t - e ≤ n → k * i ≤ e →
      (pollLoop onPollSuccess fetch dur i t hi k e).1 = PollOutcome.timeout ∧
      (pollLoop onPollSuccess fetch dur i t hi k e).2 ≤ k + (t - e + i - 1) / i := by
  intro n
  induction n with
  | zero =>
    intro k e hn hk
    rw [pollLoop]
    have h : ¬ e < t := by omega
    rw [if_neg h]
    exact ⟨rfl, Nat.le_add_right _ _⟩
  | succ n ih =>
    intro k e hn hk
    rw [pollLoop]
    by_cases h : e < t
    · rw [if_pos h]
      have hj : isNonTerminal (fetch k) = true := hnt k (by omega)
      cases hfetch : fetch k with
      | httpErr s b => rw [hfetch] at hj; simp [isNonTerminal] at hj
      | ok d =>
        rw [hfetch] at hj
        simp only [isNonTerminal, Bool.and_eq_true, Bool.not_eq_true'] at hj
        simp only [hj.1, hj.2, if_neg (Bool.false_ne_true), Bool.false_eq_true, if_false]
        have hrec := ih (k + 1) (e + dur k + i) (by omega) (by nlinarith)
        refine ⟨hrec.1, ?_⟩
        have hb := hrec.2
        have harith : (t - (e + dur k + i) + i - 1) / i + 1 ≤ (t - e + i - 1) / i := by
          rcases Nat.lt_or_ge (e + dur k + i) t with hlt | hge
          · have h1 : t - (e + dur k + i) + i - 1 ≤ t - e - 1 := by omega
            have h2 : (t - (e + dur k + i) + i - 1) / i ≤ (t - e - 1) / i :=
              Nat.div_le_div_right h1
            have h3 : (t - e - 1) / i + 1 = (t - e - 1 + i) / i :=
              (Nat.add_div_right _ hi).symm
            have h4 : t - e - 1 + i = t - e + i - 1 := by omega
            rw [h4] at h3
            omega
          · have h0 : t - (e + dur k + i) = 0 := by omega
            rw [h0]
            have hA : (0 + i - 1) / i = 0 := Nat.div_eq_of_lt (by omega)
            have hB : 1 ≤ (t - e + i - 1) / i := by
              rw [Nat.le_div_iff_mul_le hi]
              omega
            omega
        omega
    · rw [if_neg h]
      exact ⟨rfl, Nat.le_add_right _ _⟩

theorem pollLoop_nonterminal_count_exact {α : Type} (onPollSuccess : GenerationStatusResponse → PollOutcome α)
    (fetch : Nat → PollResponse) (dur : Nat → Nat) (i t : Nat) (hi : 0 < i)
    (hnt : ∀ j, j * i < t → isNonTerminal (fetch j) = true)
    (hdur : ∀ j, dur j = 0) :
    ∀ n k e, t - e ≤ n → k * i ≤ e →
      (pollLoop onPollSuccess fetch dur i t hi k e).2 = k + (t - e + i - 1) / i := by
  intro n
  induction n with
  | zero =>
    intro k e hn hk
    rw [pollLoop]
    have h : ¬ e < t := by omega
    rw [if_neg h]
    have h0 : t - e = 0 := by omega
    rw [h0]
    have hz : (0 + i - 1) / i = 0 := Nat.div_eq_of_lt (by omega)
    omega
  | succ n ih =>
    intro k e hn hk
    rw [pollLoop]
    by_cases h : e < t
    · rw [if_pos h]
      have hj : isNonTerminal (fetch k) = true := hnt k (by omega)
      cases hfetch : fetch k with
      | httpErr s b => rw [hfetch] at hj; simp [isNonTerminal] at hj
      | ok d =>
        rw [hfetch] at hj
        simp only [isNonTerminal, Bool.and_eq_true, Bool.not_eq_true'] at hj
        simp only [hj.1, hj.2, if_neg (Bool.false_ne_true), Bool.false_eq_true, if_false]
        rw [hdur k]
        have hrec := ih (k + 1) (e + 0 + i) (by omega) (by nlinarith)
        rw [hrec]
        have harith : (t - (e + 0 + i) + i - 1) / i + 1 = (t - e + i - 1) / i := by
          rcases Nat.lt_or_ge (e + i) t with hlt | hge
          · have h1 : t - (e + 0 + i) + i - 1 = t - e - 1 := by omega
            rw [h1]
            have h3 : (t - e - 1) / i + 1 = (t - e - 1 + i) / i :=
              (Nat.add_div_right _ hi).symm
            have h4 : t - e - 1 + i = t - e + i - 1 := by omega
            rw [h4] at h3
            omega
          · have h0 : t - (e + 0 + i) = 0 := by omega
            rw [h0]
            have hA : (0 + i - 1) / i = 0 := Nat.div_eq_of_lt (by omega)
            have hB : (t - e + i - 1) / i = 1 := by
              apply Nat.div_eq_of_lt_le
              · omega
              · omega
            omega
        omega
    · rw [if_neg h]
      have h0 : t - e = 0 := by omega
      rw [h0]
      have hz : (0 + i - 1) / i = 0 := Nat.div_eq_of_lt (by omega)
      omega

/-- C3: when no status fetched before the deadline is terminal, the poll loop
fails with the timeout error — independent of which non-terminal statuses were
observed and of the variant's success branch — and the number of status-fetch
HTTP calls is at most timeout/interval + 1, and exactly the ceiling of
timeout/interval when fetches are instantaneous (non-zero fetch latency can
only lower the count). -/
theorem pollGeneration_nonterminal_times_out {α : Type}
    (onPollSuccess : GenerationStatusResponse → PollOutcome α)
    (fetch : Nat → PollResponse) (dur : Nat → Nat) (i t : Nat) (hi : 0 < i)
    (hnt : ∀ j, j * i < t → isNonTerminal (fetch j) = true) :
    (pollLoop onPollSuccess fetch dur i t hi 0 0).1 = PollOutcome.timeout ∧
    (pollLoop onPollSuccess fetch dur i t hi 0 0).2 ≤ t / i + 1 ∧
    ((∀ j, dur j = 0) → (pollLoop onPollSuccess fetch dur i t hi 0 0).2 = (t + i - 1) / i) := by
  have haux := pollLoop_nonterminal_aux onPollSuccess fetch dur i t hi hnt t 0 0
    (by omega) (by omega)
  refine ⟨haux.1, ?_, ?_⟩
  · have hb := haux.2
    have hceil : (t - 0 + i - 1) / i ≤ t / i + 1 := by
      have h1 : t - 0 + i - 1 ≤ t + i := by omega
      have h2 : (t - 0 + i - 1) / i ≤ (t + i) / i := Nat.div_le_div_right h1
      have h3 : (t + i) / i = t / i + 1 := Nat.add_div_right _ hi
      omega
    omega
  · intro hdur
    have hx := pollLoop_nonterminal_count_exact onPollSuccess fetch dur i t hi hnt hdur t 0 0
      (by omega) (by omega)
    rw [hx]
    have h0 : t - 0 = t := by omega
    rw [h0]
    omega

theorem pollGeneration_nonterminal_times_out_witness :
    (pollLoop onSuccessP0 (fun _ => PollResponse.ok { status := some "pending" })
        (fun _ => 0) defaultIntervalMs defaultTimeoutMs (by decide) 0 0).1 = PollOutcome.timeout ∧
    (pollLoop onSuccessP0 (fun _ => PollResponse.ok { status := some "pending" })
        (fun _ => 0) defaultIntervalMs defaultTimeoutMs (by decide) 0 0).2 = 100 ∧
    defaultTimeoutMs / defaultIntervalMs = 100 := by
  have hone : isNonTerminal (PollResponse.ok { status := some "pending" }) = true := by decide
  have h := pollGeneration_nonterminal_times_out onSuccessP0
    (fun _ => PollResponse.ok { status := some "pending" }) (fun _ => 0)
    defaultIntervalMs defaultTimeoutMs (by decide) (fun j _ => hone)
  refine ⟨h.1, ?_, by decide⟩
  have hx := h.2.2 (fun j => rfl)
  rw [hx]
  decide

theorem filesCandidate_none_or_truthy (f : Option (List FileEntry)) :
    filesCandidate f = none ∨ truthy (filesCandidate f) = true := by
  unfold filesCandidate
  match f with
  | none => exact Or.inl rfl
  | some [] => exact Or.inl rfl
  | some (first :: rest) =>
    by_cases h : truthy (entryUrl first)
    · right
      simp [h]
    · left
      simp [h]

theorem truthy_ne_none {v : Option String} : truthy v = true → v ≠ none := by
  cases v <;> simp [truthy]

theorem truthy_none : truthy none = false := rfl

theorem extractV2_eq_claimed (d : GenerationStatusResponse) :
    extractFileUrlV2 d = claimedFileUrlPriority d := by
  unfold extractFileUrlV2 claimedFileUrlPriority
  cases he : truthy d.exportUrl <;> cases hp : truthy d.pptxUrl <;> cases hd : truthy d.pdfUrl <;>
    rcases filesCandidate_none_or_truthy d.files with hf | hf <;>
    rcases filesCandidate_none_or_truthy d.resultFiles with hr | hr <;>
    simp_all [firstTruthy, truthy_ne_none, truthy_none]

/-- C6 counterexample: the part_000 (and build/index.js) extraction does not
follow the claimed priority order — it never consults the explicit export-URL
field, so a success response carrying only `exportUrl` yields no file URL at
all, while the claimed order yields that URL; moreover with both format
fields present it prefers pptx over pdf by overwriting. -/
theorem extractFileUrlP0_breaks_claimed_priority :
    extractFileUrlP0 { status := some "completed", exportUrl := some "https://files.example/export" } = none ∧
    claimedFileUrlPriority { status := some "completed", exportUrl := some "https://files.example/export" }
      = some "https://files.example/export" ∧
    extractFileUrlP0 { pdfUrl := some "https://files.example/a.pdf", pptxUrl := some "https://files.example/a.pptx" } = some "https://files.example/a.pptx" := by
  refine ⟨by decide, by decide, by decide⟩

/-- C6 amended: the claimed priority order — explicit export-URL field first,
then the format-specific URL fields (pptx before pdf), then the first element
of one of the files-list fields, accepting a bare string or an object with a
url member — is exactly the extraction of the part_001 variant's
`pollGeneration` on a terminal success status; the part_000/build variant
instead ignores `exportUrl` and lets pptx overwrite pdf. -/
theorem pollGenerationV2_fileUrl_priority (d : GenerationStatusResponse)
    (fetch : Nat → PollResponse) (dur : Nat → Nat) (i t : Nat) (hi : 0 < i) (ht : 0 < t)
    (hs : isSuccessStatus d = true) (hfetch : fetch 0 = .ok d) :
    pollLoop onSuccessV2 fetch dur i t hi 0 0 =
      (PollOutcome.done { gammaUrl := gammaUrlOf d, fileUrl := claimedFileUrlPriority d }, 1) := by
  rw [pollLoop_first_success onSuccessV2 fetch dur i t hi d hfetch hs ht]
  rw [onSuccessV2, extractV2_eq_claimed]

theorem pollGenerationV2_fileUrl_priority_witness :
    pollLoop onSuccessV2
      (fun _ => PollResponse.ok { status := some "completed", exportUrl := some "https://files.example/export.pptx", pdfUrl := some "https://files.example/a.pdf", files := some [FileEntry.str "https://files.example/b.pdf"] })
      (fun _ => 0) defaultIntervalMs defaultTimeoutMs (by decide) 0 0 =
      (PollOutcome.done { gammaUrl := none, fileUrl := some "https://files.example/export.pptx" }, 1) := by
  have h := pollGenerationV2_fileUrl_priority
    { status := some "completed", exportUrl := some "https://files.example/export.pptx", pdfUrl := some "https://files.example/a.pdf", files := some [FileEntry.str "https://files.example/b.pdf"] }
    (fun _ => PollResponse.ok { status := some "completed", exportUrl := some "https://files.example/export.pptx", pdfUrl := some "https://files.example/a.pdf", files := some [FileEntry.str "https://files.example/b.pdf"] })
    (fun _ => 0) defaultIntervalMs defaultTimeoutMs (by decide) (by decide) (by decide) rfl
  exact h.trans (by decide)

/-- C7 counterexample: in the src/src/index.ts variant, a terminal success
status whose response contains no recognizable URL does NOT yield a result
with absent URLs — `pollGeneration` throws
"Gamma v0.2 completed but no file URL present in response". -/
theorem pollGenerationSrc_success_without_url_raises :
    pollLoop onSuccessSrc (fun _ => PollResponse.ok { status := some "completed" })
      (fun _ => 0) defaultIntervalMs defaultTimeoutMs (by decide) 0 0 =
      (PollOutcome.raised "Gamma v0.2 completed but no file URL present in response", 1) := by
  have h := pollLoop_first_success onSuccessSrc
    (fun _ => PollResponse.ok { status := some "completed" }) (fun _ => 0)
    defaultIntervalMs defaultTimeoutMs (by decide)
    { status := some "completed" } rfl (by decide) (by decide)
  exact h.trans (by decide)

/-- C7 amended: in the part_000/part_001/build variants, whose
`pollGeneration` returns a gammaUrl/fileUrl pair, a terminal success status
returns whatever the candidate fields yield and both components may be
absent — never an error outcome; the historical src/src/index.ts variant
instead throws when a success response contains no recognizable URL. -/
theorem pollGenerationP0_success_returns_optional_urls (d : GenerationStatusResponse)
    (fetch : Nat → PollResponse) (dur : Nat → Nat) (i t : Nat) (hi : 0 < i) (ht : 0 < t)
    (hs : isSuccessStatus d = true) (hfetch : fetch 0 = .ok d) :
    pollLoop onSuccessP0 fetch dur i t hi 0 0 =
      (PollOutcome.done { gammaUrl := gammaUrlOf d, fileUrl := extractFileUrlP0 d }, 1) :=
  pollLoop_first_success onSuccessP0 fetch dur i t hi d hfetch hs ht

theorem pollGenerationP0_success_returns_optional_urls_witness :
    pollLoop onSuccessP0 (fun _ => PollResponse.ok { status := some "succeeded" })
      (fun _ => 0) defaultIntervalMs defaultTimeoutMs (by decide) 0 0 =
      (PollOutcome.done { gammaUrl := none, fileUrl := none }, 1) := by
  have h := pollGenerationP0_success_returns_optional_urls { status := some "succeeded" }
    (fun _ => PollResponse.ok { status := some "succeeded" }) (fun _ => 0)
    defaultIntervalMs defaultTimeoutMs (by decide) (by decide) (by decide) rfl
  exact h.trans (by decide)

theorem generatePresentation_boundary_cases (cli : CliOptions) (envApiKey : Option String)
    (env : Env) (params : GenParams) :
    ((generatePresentation cli envApiKey env params).1.error = none ∧
      raisesDuringRun env params = false) ∨
    ((generatePresentation cli envApiKey env params).1.url = none ∧
      (generatePresentation cli envApiKey env params).1.filePath = none ∧
      ((generatePresentation cli envApiKey env params).1.error).isSome = true ∧
      raisesDuringRun env params = true) := by
  rcases hpoll : pollGenerationDefault env.pollFetch env.pollDur with ⟨po, n⟩
  unfold generatePresentation raisesDuringRun
  rw [hpoll]
  cases hinit : startGeneration (buildPayload params) env.initResponse with
  | error e => right; simp [hinit]
  | ok id =>
    simp only [hinit]
    cases po with
    | done pr =>
      by_cases hc : (truthy pr.fileUrl && truthy params.exportAs) = true
      · have hc2 : truthy pr.fileUrl = true ∧ truthy params.exportAs = true := by
          simp only [Bool.and_eq_true] at hc
          exact hc
        have hne : pr.fileUrl ≠ none := truthy_ne_none hc2.1
        cases hfu : pr.fileUrl with
        | none => exact absurd hfu hne
        | some u =>
          have h1 : truthy (some u) = true := hfu ▸ hc2.1
          cases hup : urlPathname u with
          | none => right; simp [h1, hc2.2, hfu, hup]
          | some p =>
            left
            cases hdl : env.downloadOk <;> simp [h1, hc2.2, hfu, hup, hdl]
      · left
        simp only [Bool.and_eq_true, not_and_or, Bool.not_eq_true] at hc
        rcases hc with hc | hc <;> simp [hc]
    | raised msg => right; simp
    | genFailed => right; simp
    | httpError s b => right; simp
    | timeout => right; simp

/-- C1: for every parameter object and environment, every modeled exception
raised during submission, polling, or the download phase is caught at the
orchestration boundary: the result then has absent url and file-path fields
and carries an error description; the orchestration always returns a
structured result, and on success the error field is absent. -/
theorem generatePresentation_never_throws (cli : CliOptions) (envApiKey : Option String)
    (env : Env) (params : GenParams) :
    (raisesDuringRun env params = true →
      (generatePresentation cli envApiKey env params).1.url = none ∧
      (generatePresentation cli envApiKey env params).1.filePath = none ∧
      ((generatePresentation cli envApiKey env params).1.error).isSome = true) ∧
    (raisesDuringRun env params = false →
      (generatePresentation cli envApiKey env params).1.error = none) := by
  rcases generatePresentation_boundary_cases cli envApiKey env params with ⟨h1, h2⟩ | ⟨h1, h2, h3, h4⟩
  · exact ⟨fun hr => absurd hr (by rw [h2]; simp), fun _ => h1⟩
  · exact ⟨fun _ => ⟨h1, h2, h3⟩, fun hr => absurd hr (by rw [h4]; simp)⟩

theorem generatePresentation_never_throws_witness :
    (generatePresentation { apiKey := none, headers := [] } none { initResponse := InitResponse.httpErr 500 "boom", pollFetch := fun _ => PollResponse.ok {}, pollDur := fun _ => 0, downloadOk := true } {}).1.url = none ∧
    (generatePresentation { apiKey := none, headers := [] } none { initResponse := InitResponse.httpErr 500 "boom", pollFetch := fun _ => PollResponse.ok {}, pollDur := fun _ => 0, downloadOk := true } {}).1.filePath = none ∧
    ((generatePresentation { apiKey := none, headers := [] } none { initResponse := InitResponse.httpErr 500 "boom", pollFetch := fun _ => PollResponse.ok {}, pollDur := fun _ => 0, downloadOk := true } {}).1.error).isSome = true :=
  (generatePresentation_never_throws { apiKey := none, headers := [] } none
    { initResponse := InitResponse.httpErr 500 "boom", pollFetch := fun _ => PollResponse.ok {}, pollDur := fun _ => 0, downloadOk := true } {}).1 (by decide)

/-- C4: when the job reaches a terminal success status with an export
requested and a file URL resolved, but the artifact download GET returns
non-2xx, the overall operation still reports success — the view link is
returned, the local file path is absent, and no error is raised; the download
request was issued and its failure was not escalated. -/
theorem download_failure_is_nonfatal (cli : CliOptions) (envApiKey : Option String)
    (env : Env) (params : GenParams) (d : GenerationStatusResponse) (id u p : String)
    (hinit : startGeneration (buildPayload params) env.initResponse = Except.ok id)
    (hfetch : env.pollFetch 0 = PollResponse.ok d)
    (hs : isSuccessStatus d = true)
    (hfile : extractFileUrlP0 d = some u) (hu : u ≠ "")
    (hexp : truthy params.exportAs = true)
    (hp : urlPathname u = some p)
    (hdl : env.downloadOk = false) :
    (generatePresentation cli envApiKey env params).1.url = jsOrNull (gammaUrlOf d) ∧
    (generatePresentation cli envApiKey env params).1.filePath = none ∧
    (generatePresentation cli envApiKey env params).1.error = none ∧
    downloadRequest u ∈ (generatePresentation cli envApiKey env params).2 := by
  have hpoll : pollGenerationDefault env.pollFetch env.pollDur =
      (PollOutcome.done { gammaUrl := gammaUrlOf d, fileUrl := extractFileUrlP0 d }, 1) :=
    pollLoop_first_success onSuccessP0 env.pollFetch env.pollDur
      defaultIntervalMs defaultTimeoutMs (by decide) d hfetch hs (by decide)
  have htru : truthy (extractFileUrlP0 d) = true := by
    rw [hfile]
    simp [truthy, hu]
  have h1 : truthy (some u) = true := by simp [truthy, hu]
  unfold generatePresentation
  simp only [hinit, hpoll]
  simp [htru, hexp, hfile, hp, hdl, h1]

theorem download_failure_is_nonfatal_witness :
    (generatePresentation { apiKey := none, headers := [] } none { initResponse := InitResponse.ok (some "abc"), pollFetch := fun _ => PollResponse.ok { status := some "completed", gammaUrl := some "https://gamma.app/docs/x", pdfUrl := some "https://files.example/f.pdf" }, pollDur := fun _ => 0, downloadOk := false } { exportAs := some "pdf" }).1.url = some "https://gamma.app/docs/x" ∧
    (generatePresentation { apiKey := none, headers := [] } none { initResponse := InitResponse.ok (some "abc"), pollFetch := fun _ => PollResponse.ok { status := some "completed", gammaUrl := some "https://gamma.app/docs/x", pdfUrl := some "https://files.example/f.pdf" }, pollDur := fun _ => 0, downloadOk := false } { exportAs := some "pdf" }).1.filePath = none ∧
    (generatePresentation { apiKey := none, headers := [] } none { initResponse := InitResponse.ok (some "abc"), pollFetch := fun _ => PollResponse.ok { status := some "completed", gammaUrl := some "https://gamma.app/docs/x", pdfUrl := some "https://files.example/f.pdf" }, pollDur := fun _ => 0, downloadOk := false } { exportAs := some "pdf" }).1.error = none := by
  have h := download_failure_is_nonfatal { apiKey := none, headers := [] } none
    { initResponse := InitResponse.ok (some "abc"), pollFetch := fun _ => PollResponse.ok { status := some "completed", gammaUrl := some "https://gamma.app/docs/x", pdfUrl := some "https://files.example/f.pdf" }, pollDur := fun _ => 0, downloadOk := false }
    { exportAs := some "pdf" }
    { status := some "completed", gammaUrl := some "https://gamma.app/docs/x", pdfUrl := some "https://files.example/f.pdf" }
    "abc" "https://files.example/f.pdf" "/f.pdf"
    rfl rfl (by decide) (by decide) (by decide) (by decide) (by decide) rfl
  refine ⟨h.1.trans (by decide), h.2.1, h.2.2.1⟩

/-- C9 counterexample: on a successful download run with job id "abc" and a
file URL whose path extension is ".pdf", the artifact is saved as
`gamma-generation-abc.pdf` — not as `generation-abc.pdf`, the filename the
claim states. -/
theorem saved_filename_not_bare_generation :
    (generatePresentation { apiKey := none, headers := [] } none { initResponse := InitResponse.ok (some "abc"), pollFetch := fun _ => PollResponse.ok { status := some "completed", pdfUrl := some "https://files.example/f.pdf" }, pollDur := fun _ => 0, downloadOk := true } { exportAs := some "pdf" }).1.filePath = some "output/gamma-generation-abc.pdf" ∧
    "output/gamma-generation-abc.pdf" ≠ "output/" ++ ("generation-" ++ "abc" ++ ".pdf") := by
  have hpoll : pollGenerationDefault (fun _ => PollResponse.ok { status := some "completed", pdfUrl := some "https://files.example/f.pdf" }) (fun _ => 0) =
      (PollOutcome.done { gammaUrl := gammaUrlOf { status := some "completed", pdfUrl := some "https://files.example/f.pdf" }, fileUrl := extractFileUrlP0 { status := some "completed", pdfUrl := some "https://files.example/f.pdf" } }, 1) :=
    pollLoop_first_success onSuccessP0 _ _ defaultIntervalMs defaultTimeoutMs (by decide)
      { status := some "completed", pdfUrl := some "https://files.example/f.pdf" } rfl (by decide) (by decide)
  constructor
  · unfold generatePresentation
    simp only [hpoll]
    decide
  · decide

/-- C9 amended: for every successful download, the artifact is written into
the on-demand-created output directory under the filename
`gamma-generation-{jobId}{ext}` — with the prefix `gamma-generation-`, not
`generation-` — where ext is the URL path's extension or, if the path has
none, a dot followed by the requested export format. -/
theorem saved_filename_shape (cli : CliOptions) (envApiKey : Option String)
    (env : Env) (params : GenParams) (d : GenerationStatusResponse) (id u p : String)
    (hinit : startGeneration (buildPayload params) env.initResponse = Except.ok id)
    (hfetch : env.pollFetch 0 = PollResponse.ok d)
    (hs : isSuccessStatus d = true)
    (hfile : extractFileUrlP0 d = some u) (hu : u ≠ "")
    (hexp : truthy params.exportAs = true)
    (hp : urlPathname u = some p)
    (hdl : env.downloadOk = true) :
    (generatePresentation cli envApiKey env params).1.filePath =
      some (outputDir ++ "/" ++ ("gamma-generation-" ++ id ++
        (if extname p = "" then "." ++ (params.exportAs.getD "") else extname p))) ∧
    (generatePresentation cli envApiKey env params).1.error = none := by
  have hpoll : pollGenerationDefault env.pollFetch env.pollDur =
      (PollOutcome.done { gammaUrl := gammaUrlOf d, fileUrl := extractFileUrlP0 d }, 1) :=
    pollLoop_first_success onSuccessP0 env.pollFetch env.pollDur
      defaultIntervalMs defaultTimeoutMs (by decide) d hfetch hs (by decide)
  have htru : truthy (extractFileUrlP0 d) = true := by
    rw [hfile]
    simp [truthy, hu]
  have h1 : truthy (some u) = true := by simp [truthy, hu]
  unfold generatePresentation
  simp only [hinit, hpoll]
  simp [htru, hexp, hfile, hp, hdl, h1]

theorem saved_filename_shape_witness :
    (generatePresentation { apiKey := none, headers := [] } none { initResponse := InitResponse.ok (some "xyz"), pollFetch := fun _ => PollResponse.ok { status := some "success", files := some [FileEntry.obj (some "https://files.example/deck")] }, pollDur := fun _ => 0, downloadOk := true } { exportAs := some "pptx" }).1.filePath = some "output/gamma-generation-xyz.pptx" ∧
    (generatePresentation { apiKey := none, headers := [] } none { initResponse := InitResponse.ok (some "xyz"), pollFetch := fun _ => PollResponse.ok { status := some "success", files := some [FileEntry.obj (some "https://files.example/deck")] }, pollDur := fun _ => 0, downloadOk := true } { exportAs := some "pptx" }).1.error = none := by
  have h := saved_filename_shape { apiKey := none, headers := [] } none
    { initResponse := InitResponse.ok (some "xyz"), pollFetch := fun _ => PollResponse.ok { status := some "success", files := some [FileEntry.obj (some "https://files.example/deck")] }, pollDur := fun _ => 0, downloadOk := true }
    { exportAs := some "pptx" }
    { status := some "success", files := some [FileEntry.obj (some "https://files.example/deck")] }
    "xyz" "https://files.example/deck" "/deck"
    rfl rfl (by decide) (by decide) (by decide) (by decide) (by decide) rfl
  exact ⟨h.1.trans (by decide), h.2⟩

/-- C10: every HTTP request the orchestration issues is either the submission
request or a status-fetch request — both carrying exactly the composed
`buildHeaders` set and addressed to the API — or the artifact download
request, which is issued with no headers at all; in particular the composed
auth header set is never sent to the file URL's host. -/
theorem download_request_carries_no_headers (cli : CliOptions) (envApiKey : Option String)
    (env : Env) (params : GenParams) (req : HttpRequest)
    (hreq : req ∈ (generatePresentation cli envApiKey env params).2) :
    (req = initRequest cli envApiKey ∧ req.headers = some (buildHeaders cli envApiKey [])) ∨
    (∃ id, req = pollRequest cli envApiKey id ∧ req.headers = some (buildHeaders cli envApiKey [])) ∨
    (∃ u, req = downloadRequest u ∧ req.headers = none) := by
  rcases hpoll : pollGenerationDefault env.pollFetch env.pollDur with ⟨po, n⟩
  unfold generatePresentation at hreq
  rw [hpoll] at hreq
  cases hinit : startGeneration (buildPayload params) env.initResponse with
  | error e =>
    simp only [hinit, List.mem_singleton] at hreq
    left
    exact ⟨hreq, by rw [hreq]; rfl⟩
  | ok id =>
    simp only [hinit] at hreq
    have hbase : ∀ r, r ∈ initRequest cli envApiKey ::
        List.replicate n (pollRequest cli envApiKey id) →
        (r = initRequest cli envApiKey ∧ r.headers = some (buildHeaders cli envApiKey [])) ∨
        (∃ i, r = pollRequest cli envApiKey i ∧ r.headers = some (buildHeaders cli envApiKey [])) ∨
        (∃ u, r = downloadRequest u ∧ r.headers = none) := by
      intro r hr
      rcases List.mem_cons.mp hr with hr | hr
      · exact Or.inl ⟨hr, by rw [hr]; rfl⟩
      · exact Or.inr (Or.inl ⟨id, List.eq_of_mem_replicate hr, by rw [List.eq_of_mem_replicate hr]; rfl⟩)
    cases po with
    | done pr =>
      by_cases hc : (truthy pr.fileUrl && truthy params.exportAs) = true
      · have hc2 : truthy pr.fileUrl = true ∧ truthy params.exportAs = true := by
          simp only [Bool.and_eq_true] at hc
          exact hc
        have hne : pr.fileUrl ≠ none := truthy_ne_none hc2.1
        cases hfu : pr.fileUrl with
        | none => exact absurd hfu hne
        | some u =>
          have h1 : truthy (some u) = true := hfu ▸ hc2.1
          cases hup : urlPathname u with
          | none =>
            simp only [h1, hc2.2, hfu, hup, if_pos, and_self, if_true] at hreq
            exact hbase req hreq
          | some p =>
            cases hdl : env.downloadOk <;>
              simp only [h1, hc2.2, hfu, hup, hdl, and_self, if_true, if_false,
                Bool.false_eq_true] at hreq <;>
              rcases List.mem_cons.mp hreq with hr | hr
            · exact Or.inl ⟨hr, by rw [hr]; rfl⟩
            · rcases List.mem_append.mp hr with hr2 | hr2
              · exact Or.inr (Or.inl ⟨id, List.eq_of_mem_replicate hr2,
                  by rw [List.eq_of_mem_replicate hr2]; rfl⟩)
              · simp only [List.mem_singleton] at hr2
                exact Or.inr (Or.inr ⟨u, hr2, by rw [hr2]; rfl⟩)
            · exact Or.inl ⟨hr, by rw [hr]; rfl⟩
            · rcases List.mem_append.mp hr with hr2 | hr2
              · exact Or.inr (Or.inl ⟨id, List.eq_of_mem_replicate hr2,
                  by rw [List.eq_of_mem_replicate hr2]; rfl⟩)
              · simp only [List.mem_singleton] at hr2
                exact Or.inr (Or.inr ⟨u, hr2, by rw [hr2]; rfl⟩)
      · simp only [Bool.and_eq_true, not_and_or, Bool.not_eq_true] at hc
        rcases hc with hc | hc <;> simp only [hc, Bool.false_and, Bool.and_false,
          Bool.false_eq_true, if_false] at hreq <;> exact hbase req hreq
    | raised msg => exact hbase req hreq
    | genFailed => exact hbase req hreq
    | httpError s b => exact hbase req hreq
    | timeout => exact hbase req hreq

theorem download_request_carries_no_headers_witness :
    (initRequest { apiKey := none, headers := [] } none = initRequest { apiKey := none, headers := [] } none ∧
      (initRequest { apiKey := none, headers := [] } none).headers = some (buildHeaders { apiKey := none, headers := [] } none [])) ∨
    (∃ id, initRequest { apiKey := none, headers := [] } none = pollRequest { apiKey := none, headers := [] } none id ∧
      (initRequest { apiKey := none, headers := [] } none).headers = some (buildHeaders { apiKey := none, headers := [] } none [])) ∨
    (∃ u, initRequest { apiKey := none, headers := [] } none = downloadRequest u ∧
      (initRequest { apiKey := none, headers := [] } none).headers = none) :=
  download_request_carries_no_headers { apiKey := none, headers := [] } none
    { initResponse := InitResponse.httpErr 500 "x", pollFetch := fun _ => PollResponse.ok {}, pollDur := fun _ => 0, downloadOk := true }
    {} (initRequest { apiKey := none, headers := [] } none) (by decide)

end GammaMcp
